import Mathlib

/-!
Shallow embedding of the scan progress dashboard
(`src/wordfence/cli/scan/progress.py`) of the wordfence-cli repository.

Conventions:
* Python machine integers are modelled as `Nat` (all quantities here are
  non-negative counts and screen coordinates); wherever Python subtraction
  or comparison can go negative, the computation is carried out in `Int`.
* Python `math.ceil(a / b)` on non-negative ints is modelled as the exact
  ceiling division `(a + b - 1) / b` (exact for the magnitudes involved).
* Code that can raise is modelled with `Except String`; the string names
  the Python exception raised.
* Curses drawing calls are modelled by the geometric data they depend on:
  window sizes, positions and the list of (row, col, text) writes.
-/

namespace WordfenceProgress

/-- Hard-coded width of metric boxes (`METRIC_BOX_WIDTH = 39`).  Per the
source docstring, the actual width taken up is this value +2 for the left
and right borders. -/
def METRIC_BOX_WIDTH : Nat := 39

/-- `ProgressDisplay.METRICS_PADDING = 1`. -/
def METRICS_PADDING : Nat := 1

/-- `ProgressDisplay.METRICS_COUNT = 4`. -/
def METRICS_COUNT : Nat := 4

/-- A label/value pair (`class Metric`); `value` is stored stringified. -/
structure Metric where
  label : String
  value : String
deriving DecidableEq

/-- `Box.compute_size`: content height/width, plus 2 in each dimension when
the box has a border. -/
def compute_size (border : Bool) (height width : Nat) : Nat × Nat :=
  if border then (height + 2, width + 2) else (height, width)

/-- The title-placement column computed by `Box.render` (lines 89-94): the
offset is `int((width - title_length) / 2)` when `title_length < width`
(with `width` the full window width), and `0` otherwise. -/
def render_title_offset (title_length width : Nat) : Nat :=
  if title_length < width then (width - title_length) / 2 else 0

/-- `class MetricBox(Box)`: carries its metrics list and optional title. -/
structure MetricBox where
  metrics : List Metric
  title : Option String
deriving DecidableEq

/-- `MetricBox.__init__` stores the metrics and delegates to
`Box.__init__`, which creates the window and renders; no validation of the
metrics list occurs anywhere in the constructor, so construction never
raises a configuration error. -/
def MetricBox.construct (metrics : List Metric) (title : Option String) :
    Except String MetricBox :=
  Except.ok ⟨metrics, title⟩

/-- A `MetricBox` window size: content height is `len(self.metrics)`
(`get_height`), content width is `METRIC_BOX_WIDTH` (`get_width`), and the
box is bordered. -/
def MetricBox.size (b : MetricBox) : Nat × Nat :=
  compute_size true b.metrics.length METRIC_BOX_WIDTH

/-- The writes issued by `MetricBox.draw_content` for metrics starting at
enumeration index `index`: for each metric, the label (with a trailing
colon) at the border offset, and the value right-aligned so that
`value_offset = offset + width - len(value)`. -/
def draw_metric_lines (offset : Nat) : Nat → List Metric → List (Nat × Nat × String)
  | _, [] => []
  | index, m :: rest =>
      (index + offset, offset, m.label ++ ":") ::
      (index + offset, offset + METRIC_BOX_WIDTH - m.value.length, m.value) ::
      draw_metric_lines offset (index + 1) rest

/-- `MetricBox.draw_content`: a bordered box has border offset 1. -/
def MetricBox.draw_content (b : MetricBox) : List (Nat × Nat × String) :=
  draw_metric_lines 1 0 b.metrics

/-- `ProgressDisplay._get_metrics`: builds the four fixed metrics for one
worker, then raises `ValueError` if the list it just built is longer than
`METRICS_COUNT`. -/
def get_metrics (counts bytes_processed match_count worker_index : Nat) :
    Except String (List Metric) :=
  let metrics : List Metric :=
    [⟨"Files Processed", toString counts⟩,
     ⟨"Bytes Processed", toString bytes_processed⟩,
     ⟨"Matches Found", toString match_count⟩,
     ⟨"Index", toString worker_index⟩]
  if METRICS_COUNT < metrics.length then
    Except.error "Metrics count is out of sync"
  else
    Except.ok metrics

/-- `class BoxLayout`: total line/column budget, inter-box padding, and the
mutable cursor `(x, y)` plus the tallest box seen in the current row. -/
structure BoxLayout where
  lines : Nat
  cols : Nat
  padding : Nat
  x : Nat
  y : Nat
  max_row_height : Nat
deriving DecidableEq

/-- `BoxLayout.__init__`: cursor at the origin, no row height yet. -/
def BoxLayout.init (lines cols padding : Nat) : BoxLayout :=
  ⟨lines, cols, padding, 0, 0, 0⟩

/-- `BoxLayout.position`: wrap to a new row when the remaining columns
`self.cols - self.x` (a Python int, possibly negative) are fewer than the
box width, then place the box at the cursor, track the row height and
advance the cursor.  Returns the updated layout state and the `(y, x)` the
box was positioned at. -/
def BoxLayout.position (l : BoxLayout) (size : Nat × Nat) : BoxLayout × (Nat × Nat) :=
  let height := size.1
  let width := size.2
  let l2 :=
    if (l.cols : Int) - (l.x : Int) < (width : Int) then
      { l with y := l.y + l.max_row_height + l.padding, x := 0, max_row_height := 0 }
    else l
  ({ l2 with max_row_height := max height l2.max_row_height,
             x := l2.x + width + l2.padding },
   (l2.y, l2.x))

/-- Run `BoxLayout.position` over a list of `(height, width)` box sizes in
order, collecting each placement as `(y, x, height)`. -/
def position_boxes (l : BoxLayout) : List (Nat × Nat) → List (Nat × Nat × Nat)
  | [] => []
  | b :: rest =>
      let r := l.position b
      (r.2.1, r.2.2, b.1) :: position_boxes r.1 rest

/-- The last screen row occupied by a list of placements: the maximum of
`y + height - 1` over all placed boxes. -/
def last_occupied_row (placements : List (Nat × Nat × Nat)) : Nat :=
  placements.foldl (fun acc p => max acc (p.1 + p.2.2 - 1)) 0

/-- The box sizes positioned by `ProgressDisplay._initialize_metric_boxes`
/ `_display_metrics`: the banner box first when a banner is present (a
borderless `BannerBox` of the banner's row count by the full terminal
width), then one bordered `MetricBox` per worker (content
`METRICS_COUNT × METRIC_BOX_WIDTH`). -/
def scan_boxes (worker_count : Nat) (banner_height : Option Nat) (cols : Nat) :
    List (Nat × Nat) :=
  (match banner_height with
   | some b => [compute_size false b cols]
   | none => []) ++
  List.replicate worker_count (compute_size true METRICS_COUNT METRIC_BOX_WIDTH)

/-- The last occupied row an actual `BoxLayout` positioning pass produces
over the banner (if any) and the per-worker metric boxes, as performed by
`_initialize_metric_boxes` with padding `METRICS_PADDING`. -/
def scan_layout_last_row (worker_count : Nat) (banner_height : Option Nat)
    (lines cols : Nat) : Nat :=
  last_occupied_row
    (position_boxes (BoxLayout.init lines cols METRICS_PADDING)
      (scan_boxes worker_count banner_height cols))

/-- `ProgressDisplay.metric_boxes_per_row`: `per_row = columns // 39`; if
zero, return zero; otherwise subtract one when
`per_row * 39 + (padding * per_row - 1)` (Python int arithmetic, hence the
`Int` here) exceeds `columns`. -/
def metric_boxes_per_row (columns : Nat) (padding : Nat := METRICS_PADDING) : Nat :=
  let per_row := columns / METRIC_BOX_WIDTH
  if per_row = 0 then 0
  else
    let display_length : Int :=
      (per_row : Int) * (METRIC_BOX_WIDTH : Int) + ((padding : Int) * (per_row : Int) - 1)
    if display_length ≤ (columns : Int) then per_row else per_row - 1

/-- `class LayoutValues(NamedTuple)`. -/
structure LayoutValues where
  rows : Nat
  cols : Nat
  metrics_per_row : Nat
  metric_rows : Nat
  metric_height : Nat
  banner_height : Nat
  last_metric_line : Nat
deriving DecidableEq

/-- `ProgressDisplay.get_layout_values`, parametrised over the banner
height and terminal size that the source obtains from its external
collaborators (`get_welcome_banner`, `os.get_terminal_size`).  When
`metrics_per_row` is zero, `ceil(worker_count / metrics_per_row)` raises
`ZeroDivisionError`. -/
def get_layout_values (worker_count banner_height cols rows : Nat) :
    Except String LayoutValues :=
  let metric_height := METRICS_COUNT + 2
  let metrics_per_row := metric_boxes_per_row cols
  if metrics_per_row = 0 then Except.error "ZeroDivisionError"
  else
    let metric_rows := (worker_count + metrics_per_row - 1) / metrics_per_row
    let padding := (if banner_height = 0 then 0 else 1) + (metric_rows - 1)
    let last_metric_line := metric_height * metric_rows + banner_height + padding - 1
    Except.ok ⟨rows, cols, metrics_per_row, metric_rows, metric_height,
               banner_height, last_metric_line⟩

/-- `ProgressDisplay.requirements_met`, parametrised like
`get_layout_values`: true when `rows >= last_metric_line` and
`cols > METRIC_BOX_WIDTH + 2`; a `ZeroDivisionError` from
`get_layout_values` propagates. -/
def requirements_met (worker_count banner_height cols rows : Nat) :
    Except String Bool :=
  Except.map
    (fun lv => decide (lv.last_metric_line ≤ lv.rows) &&
               decide (METRIC_BOX_WIDTH + 2 < lv.cols))
    (get_layout_values worker_count banner_height cols rows)

/-- The fixed exit prompt of `scan_finished_handler`. -/
def exit_message : String := "Press any key to exit"

/-- The row count `message_lines` of `scan_finished_handler`:
`ceil(len(results) / cols) + ceil(len(exit_message) / cols)` (requires
`cols > 0` in Python; `ZeroDivisionError` otherwise). -/
def message_lines (results_length cols : Nat) : Nat :=
  (results_length + cols - 1) / cols + (exit_message.length + cols - 1) / cols

/-- The vertical offset chosen by `scan_finished_handler`: start at
`last_metric_line + 1`, but when the block would extend past `rows`,
move it up to `rows - message_lines` (Python int arithmetic, possibly
negative, hence `Int`). -/
def scan_finished_vertical_offset (last_metric_line rows message_line_count : Nat) : Int :=
  if (last_metric_line : Int) + 1 + (message_line_count : Int) > (rows : Int) then
    (rows : Int) - (message_line_count : Int)
  else
    (last_metric_line : Int) + 1

/-- The module-level `_displays` registry, modelled as a list of display
identifiers; `ProgressDisplay.__init__` appends itself
(`_displays.append(self)`). -/
def register_display (d : Nat) (registry : List Nat) : List Nat :=
  registry ++ [d]

/-- `ProgressDisplay.end`: `curses.endwin()` then `_displays.remove(self)`.
`list.remove` raises `ValueError` when the item is not present, which is
what happens when `end` is called a second time on the same display. -/
def end_display (d : Nat) (registry : List Nat) : Except String (List Nat) :=
  if d ∈ registry then Except.ok (registry.erase d) else Except.error "ValueError"

/-- The CPython semantics of `for display in _displays: display.end()`
where the body removes the current item from the list being iterated: the
iterator keeps a position index `i`; at each step, if `i` is still in
range it yields `l[i]`, the body removes that element (shifting the rest
left), and the index advances.  `fuel` bounds the iteration count;
starting it at the initial list length is enough, since every step
strictly decreases `length - i` (by 2). -/
def reset_terminal_go : Nat → List Nat → Nat → List Nat
  | 0, l, _ => l
  | fuel + 1, l, i =>
      if h : i < l.length then
        reset_terminal_go fuel (l.erase (l.get ⟨i, h⟩)) (i + 1)
      else l

/-- Module-level `reset_terminal()`: iterate over the registry calling
`end()` on each display (which removes it from the list being iterated).
Returns the final registry contents. -/
def reset_terminal (registry : List Nat) : List Nat :=
  reset_terminal_go registry.length registry 0

/-- Modelled from the spec: the claimed per-row panel count, following the
wording of §4.4 — `floor(columns / metricPanelFullWidth)` with
`metricPanelFullWidth` the full width of one metric panel including its
border (`METRIC_BOX_WIDTH + 2`), reduced by one further if that many
panels plus the inter-panel padding between them would exceed the
available columns, and `0` whenever the terminal is narrower than one
panel. -/
def spec_panels_per_row (cols : Nat) (padding : Nat := 1) : Nat :=
  let full_width := METRIC_BOX_WIDTH + 2
  let p := cols / full_width
  if p = 0 then 0
  else if p * full_width + padding * (p - 1) ≤ cols then p else p - 1

/-! ## Theorems -/

/-- C1: for worker count 2 on an 80-column, 100-row terminal with no
banner, `get_layout_values` reports `last_metric_line = 5` (it believes two
boxes share one row), while the actual `BoxLayout` positioning pass wraps
the second metric box to row 7, so the real last occupied row is 12.  The
derived geometry and the packer disagree, refuting the claimed
equivalence. -/
theorem packer_geometry_disagree :
    scan_layout_last_row 2 none 100 80 = 12 ∧
    get_layout_values 2 0 80 100 = Except.ok ⟨100, 80, 2, 1, 6, 0, 5⟩ ∧
    (5 : Nat) ≠ 12 :=
  ⟨rfl, rfl, by decide⟩

/-- C2: `metric_boxes_per_row` divides by the interior width
`METRIC_BOX_WIDTH = 39`, not by the full bordered panel width 41 its own
docstring describes: at 80 columns it returns 2 where the claimed formula
gives 1, and at 40 columns (narrower than one full panel) it returns 1
instead of 0. -/
theorem metric_boxes_per_row_ignores_borders :
    metric_boxes_per_row 80 = 2 ∧ spec_panels_per_row 80 = 1 ∧
    metric_boxes_per_row 40 = 1 ∧ spec_panels_per_row 40 = 0 := by
  decide

/-- C6 counterexample: constructing a `MetricBox` with five metrics (one
more than `METRICS_COUNT`) succeeds — no configuration-mismatch error is
raised — and the box renders all five rows (a 7×41 window with ten content
writes). -/
theorem metric_box_excess_metrics_accepted :
    METRICS_COUNT <
      (MetricBox.mk [⟨"Files Processed", "1"⟩, ⟨"Bytes Processed", "2"⟩,
        ⟨"Matches Found", "3"⟩, ⟨"Index", "0"⟩, ⟨"Extra", "9"⟩] none).metrics.length ∧
    MetricBox.construct [⟨"Files Processed", "1"⟩, ⟨"Bytes Processed", "2"⟩,
        ⟨"Matches Found", "3"⟩, ⟨"Index", "0"⟩, ⟨"Extra", "9"⟩] none =
      Except.ok (MetricBox.mk [⟨"Files Processed", "1"⟩, ⟨"Bytes Processed", "2"⟩,
        ⟨"Matches Found", "3"⟩, ⟨"Index", "0"⟩, ⟨"Extra", "9"⟩] none) ∧
    (MetricBox.mk [⟨"Files Processed", "1"⟩, ⟨"Bytes Processed", "2"⟩,
        ⟨"Matches Found", "3"⟩, ⟨"Index", "0"⟩, ⟨"Extra", "9"⟩] none).size = (7, 41) ∧
    ((MetricBox.mk [⟨"Files Processed", "1"⟩, ⟨"Bytes Processed", "2"⟩,
        ⟨"Matches Found", "3"⟩, ⟨"Index", "0"⟩, ⟨"Extra", "9"⟩] none).draw_content).length = 10 :=
  ⟨by decide, rfl, rfl, rfl⟩

/-- Length of the `MetricBox.draw_content` write list: two writes (label
and value) per metric, whatever the enumeration start index. -/
theorem draw_metric_lines_length (offset index : Nat) (ms : List Metric) :
    (draw_metric_lines offset index ms).length = 2 * ms.length := by
  induction ms generalizing index with
  | nil => rfl
  | cons m rest ih =>
      simp only [draw_metric_lines, List.length_cons, ih]
      omega

/-- C6 amended: `MetricBox.construct` performs no validation and succeeds
on metrics lists of any length, rendering two writes per metric; the
configuration-mismatch guard lives in `ProgressDisplay._get_metrics`,
which always builds exactly `METRICS_COUNT` metrics, so its `ValueError`
can never fire. -/
theorem metric_box_no_validation (metrics : List Metric) (title : Option String) :
    MetricBox.construct metrics title = Except.ok ⟨metrics, title⟩ ∧
    (MetricBox.mk metrics title).draw_content.length = 2 * metrics.length ∧
    (∀ counts bytes_processed match_count worker_index : Nat,
      ∃ l, get_metrics counts bytes_processed match_count worker_index = Except.ok l ∧
        l.length = METRICS_COUNT) :=
  ⟨rfl, draw_metric_lines_length 1 0 metrics,
   fun _ _ _ _ => ⟨_, rfl, rfl⟩⟩

/-- C7: `Box.render` on a bordered box of interior width `W` (full window
width `W + 2`) places a title of length `L` at the centering offset
`(W + 2 - L) / 2` when the title fits in the interior, and at offset 0 for
every longer title. -/
theorem box_title_offset (content_height W L : Nat) :
    render_title_offset L (compute_size true content_height W).2 =
      if L ≤ W then (W + 2 - L) / 2 else 0 := by
  simp only [compute_size, if_pos, render_title_offset]
  split_ifs <;> omega

/-- C8: with two live displays the restore path is neither complete nor
idempotent: `reset_terminal` over registry `[1, 2]` ends only display 1
(the in-place removal shifts display 2 under the iterator), leaving
display 2 live in the registry, and a second `end` on display 1 raises
`ValueError` from `list.remove`. -/
theorem reset_terminal_not_safe :
    reset_terminal [1, 2] = [2] ∧
    end_display 2 [2] = Except.ok [] ∧
    end_display 1 [2] = Except.error "ValueError" :=
  ⟨rfl, rfl, rfl⟩

/-- C10: whenever the terminal is narrower than `METRIC_BOX_WIDTH`,
`metric_boxes_per_row` returns 0 and `get_layout_values` — hence also
`requirements_met` — fails with `ZeroDivisionError` at
`ceil(worker_count / metrics_per_row)`: the degenerate case is not handled
inside the geometry computation. -/
theorem narrow_terminal_division_by_zero (w b cols rows : Nat)
    (h : cols < METRIC_BOX_WIDTH) :
    metric_boxes_per_row cols = 0 ∧
    get_layout_values w b cols rows = Except.error "ZeroDivisionError" ∧
    requirements_met w b cols rows = Except.error "ZeroDivisionError" := by
  have h0 : cols / METRIC_BOX_WIDTH = 0 := Nat.div_eq_of_lt h
  have h1 : metric_boxes_per_row cols = 0 := by
    simp [metric_boxes_per_row, h0]
  refine ⟨h1, ?_, ?_⟩
  · simp [get_layout_values, h1]
  · simp [requirements_met, get_layout_values, h1, Except.map]

/-- C10 witness: a 20-column terminal triggers the division by zero. -/
theorem narrow_terminal_division_by_zero_witness :
    20 < METRIC_BOX_WIDTH ∧
    (metric_boxes_per_row 20 = 0 ∧
     get_layout_values 4 3 20 50 = Except.error "ZeroDivisionError" ∧
     requirements_met 4 3 20 50 = Except.error "ZeroDivisionError") :=
  ⟨by decide, narrow_terminal_division_by_zero 4 3 20 50 (by decide)⟩

/-- C4: the summary block of `scan_finished_handler` starts at
`last_metric_line + 1` when it fits below the metric grid; when the needed
lines exceed the remaining rows the offset is pulled up so the block's
bottom line index (where the exit prompt is drawn) is exactly `rows - 1`;
and in every case the chosen offset plus the block's line count never
exceeds the screen's row count. -/
theorem scan_finished_offset_spec (last_line rows results_length cols : Nat)
    (hc : 0 < cols) :
    ((last_line + 1 + message_lines results_length cols ≤ rows →
        scan_finished_vertical_offset last_line rows (message_lines results_length cols) =
          (last_line : Int) + 1) ∧
     (rows < last_line + 1 + message_lines results_length cols →
        scan_finished_vertical_offset last_line rows (message_lines results_length cols) +
          (message_lines results_length cols : Int) - 1 = (rows : Int) - 1) ∧
     scan_finished_vertical_offset last_line rows (message_lines results_length cols) +
       (message_lines results_length cols : Int) ≤ (rows : Int)) := by
  simp only [scan_finished_vertical_offset]
  split_ifs with h
  · refine ⟨fun h1 => ?_, fun _ => ?_, ?_⟩ <;> omega
  · refine ⟨fun _ => rfl, fun h2 => ?_, ?_⟩ <;> omega

/-- C4 witness: a summary of 100 characters plus the exit prompt on a
50-column, 7-row terminal needs 3 lines but only 1 row remains below
`last_metric_line = 5`, so the offset is pulled up to 4 and the block ends
at row 6 = rows - 1. -/
theorem scan_finished_offset_spec_witness :
    0 < 50 ∧
    ((5 + 1 + message_lines 100 50 ≤ 7 →
        scan_finished_vertical_offset 5 7 (message_lines 100 50) = ((5 : Nat) : Int) + 1) ∧
     (7 < 5 + 1 + message_lines 100 50 →
        scan_finished_vertical_offset 5 7 (message_lines 100 50) +
          (message_lines 100 50 : Int) - 1 = ((7 : Nat) : Int) - 1) ∧
     scan_finished_vertical_offset 5 7 (message_lines 100 50) +
       (message_lines 100 50 : Int) ≤ ((7 : Nat) : Int)) :=
  ⟨by decide, scan_finished_offset_spec 5 7 100 50 (by decide)⟩

/-- One step of monotonicity for `metric_boxes_per_row` at the default
padding: adding one column never decreases the panel count. -/
theorem metric_boxes_per_row_step (c : Nat) :
    metric_boxes_per_row c ≤ metric_boxes_per_row (c + 1) := by
  simp only [metric_boxes_per_row, METRIC_BOX_WIDTH, METRICS_PADDING]
  split_ifs <;> omega

/-- C9: `metric_boxes_per_row` (with the default padding) is monotonically
non-decreasing in its column-count argument. -/
theorem metric_boxes_per_row_mono (c1 c2 : Nat) (h : c1 ≤ c2) :
    metric_boxes_per_row c1 ≤ metric_boxes_per_row c2 := by
  induction h with
  | refl => exact Nat.le_refl _
  | step _ ih => exact Nat.le_trans ih (metric_boxes_per_row_step _)

/-- C9 witness: 39 ≤ 100 and the panel count at 39 columns is at most the
panel count at 100 columns. -/
theorem metric_boxes_per_row_mono_witness :
    39 ≤ 100 ∧ metric_boxes_per_row 39 ≤ metric_boxes_per_row 100 :=
  ⟨by decide, metric_boxes_per_row_mono 39 100 (by decide)⟩

/-- Inversion for `get_layout_values` when the per-row panel count is
non-zero: the returned record, field by field. -/
theorem get_layout_values_ok (w b c r : Nat) (hp : ¬ metric_boxes_per_row c = 0) :
    get_layout_values w b c r = Except.ok
      { rows := r, cols := c,
        metrics_per_row := metric_boxes_per_row c,
        metric_rows := (w + metric_boxes_per_row c - 1) / metric_boxes_per_row c,
        metric_height := METRICS_COUNT + 2,
        banner_height := b,
        last_metric_line :=
          (METRICS_COUNT + 2) * ((w + metric_boxes_per_row c - 1) / metric_boxes_per_row c)
            + b + ((if b = 0 then 0 else 1)
            + ((w + metric_boxes_per_row c - 1) / metric_boxes_per_row c - 1)) - 1 } := by
  simp only [get_layout_values, hp, if_false]

/-- Ceiling division, lower multiple: `w ≤ ceil(w / p) * p`. -/
theorem ceil_div_le_mul (w p : Nat) (hp : 0 < p) (hw : 1 ≤ w) :
    w ≤ ((w + p - 1) / p) * p := by
  have h1 : w + p - 1 < ((w + p - 1) / p + 1) * p :=
    (Nat.div_lt_iff_lt_mul hp).mp (Nat.lt_succ_self _)
  have h2 : ((w + p - 1) / p + 1) * p = (w + p - 1) / p * p + p := by ring
  rw [h2] at h1
  generalize (w + p - 1) / p * p = t at h1 ⊢
  omega

/-- Ceiling division, strict upper bound for the previous multiple:
`(ceil(w / p) - 1) * p < w`. -/
theorem ceil_div_pred_mul_lt (w p : Nat) (hp : 0 < p) (hw : 1 ≤ w) :
    (((w + p - 1) / p) - 1) * p < w := by
  have h2 : ((w + p - 1) / p) * p ≤ w + p - 1 := Nat.div_mul_le_self _ _
  have h3 : (((w + p - 1) / p) - 1) * p = ((w + p - 1) / p) * p - 1 * p :=
    Nat.sub_mul _ _ _
  rw [Nat.one_mul] at h3
  rw [h3]
  generalize ((w + p - 1) / p) * p = t at h2 ⊢
  omega

/-- Ceiling division of a positive numerator is positive. -/
theorem ceil_div_pos (w p : Nat) (hp : 0 < p) (hw : 1 ≤ w) :
    1 ≤ (w + p - 1) / p := by
  rw [Nat.le_div_iff_mul_le hp]
  omega

/-- C3: for worker count `w ≥ 1` and at least one panel per row,
`get_layout_values` succeeds with `metric_height = METRICS_COUNT + 2`,
`metric_rows` the exact ceiling of `w / metrics_per_row` (characterised by
`(metric_rows - 1) * metrics_per_row < w ≤ metric_rows * metrics_per_row`),
and `last_metric_line = metric_height * metric_rows + banner_height +
verticalPadding - 1` where `verticalPadding` is one gap under a non-empty
banner plus one gap between each pair of metric rows. -/
theorem get_layout_values_formula (w b cols rows : Nat) (hw : 1 ≤ w)
    (hp : 1 ≤ metric_boxes_per_row cols) :
    ∃ lv, get_layout_values w b cols rows = Except.ok lv ∧
      lv.metric_height = METRICS_COUNT + 2 ∧
      w ≤ lv.metric_rows * metric_boxes_per_row cols ∧
      (lv.metric_rows - 1) * metric_boxes_per_row cols < w ∧
      lv.last_metric_line + 1 =
        lv.metric_height * lv.metric_rows + b +
          ((if 0 < b then 1 else 0) + (lv.metric_rows - 1)) := by
  have hp0 : ¬ metric_boxes_per_row cols = 0 := by omega
  have hppos : 0 < metric_boxes_per_row cols := hp
  refine ⟨_, get_layout_values_ok w b cols rows hp0, rfl, ?_, ?_, ?_⟩
  · exact ceil_div_le_mul w (metric_boxes_per_row cols) hppos hw
  · exact ceil_div_pred_mul_lt w (metric_boxes_per_row cols) hppos hw
  · dsimp only
    have hq := ceil_div_pos w (metric_boxes_per_row cols) hppos hw
    simp only [METRICS_COUNT]
    generalize hqg :
      (w + metric_boxes_per_row cols - 1) / metric_boxes_per_row cols = q at hq ⊢
    rcases Nat.eq_zero_or_pos b with hb | hb
    · subst hb
      rw [if_pos rfl, if_neg (by omega : ¬ (0 : Nat) < 0)]
      omega
    · rw [if_neg (by omega : ¬ b = 0), if_pos hb]
      omega

/-- C3 witness: 5 workers, banner height 3, a 100-column, 50-row terminal:
two panels per row, three metric rows. -/
theorem get_layout_values_formula_witness :
    1 ≤ 5 ∧ 1 ≤ metric_boxes_per_row 100 ∧
    (∃ lv, get_layout_values 5 3 100 50 = Except.ok lv ∧
      lv.metric_height = METRICS_COUNT + 2 ∧
      5 ≤ lv.metric_rows * metric_boxes_per_row 100 ∧
      (lv.metric_rows - 1) * metric_boxes_per_row 100 < 5 ∧
      lv.last_metric_line + 1 =
        lv.metric_height * lv.metric_rows + 3 +
          ((if 0 < 3 then 1 else 0) + (lv.metric_rows - 1))) :=
  ⟨by decide, by decide, get_layout_values_formula 5 3 100 50 (by decide) (by decide)⟩

/-- C5 counterexample: with one worker, no banner, a 42-column, 5-row
terminal, `requirements_met` returns `true` although the last occupied row
index (5, both by its own geometry and by an actual layout pass) is not
within the 5 screen rows (indices 0..4), and although
`cols = 42 ≤ metricPanelFullWidth + 2 = 43`. -/
theorem requirements_met_accepts_nonfitting :
    requirements_met 1 0 42 5 = Except.ok true ∧
    get_layout_values 1 0 42 5 = Except.ok ⟨5, 42, 1, 1, 6, 0, 5⟩ ∧
    scan_layout_last_row 1 none 5 42 = 5 ∧
    ¬ (5 : Nat) < 5 ∧
    42 ≤ (METRIC_BOX_WIDTH + 2) + 2 :=
  ⟨rfl, rfl, rfl, by decide, by decide⟩

/-- C5 amended: `requirements_met` returns `true` only if its own geometry
fits in the weak sense `last_metric_line ≤ rows` (the grid may touch one
row past the screen) and `cols > METRIC_BOX_WIDTH + 2 = 41`; in
particular it never returns `true` when `cols ≤ 41` (for `cols < 39` it
propagates `ZeroDivisionError` instead of returning `false`). -/
theorem requirements_met_amended (w b c r : Nat) :
    (requirements_met w b c r = Except.ok true →
      ∃ lv, get_layout_values w b c r = Except.ok lv ∧
        lv.last_metric_line ≤ r ∧ METRIC_BOX_WIDTH + 2 < c) ∧
    (c ≤ METRIC_BOX_WIDTH + 2 → requirements_met w b c r ≠ Except.ok true) := by
  have main : requirements_met w b c r = Except.ok true →
      ∃ lv, get_layout_values w b c r = Except.ok lv ∧
        lv.last_metric_line ≤ r ∧ METRIC_BOX_WIDTH + 2 < c := by
    intro h
    by_cases hp : metric_boxes_per_row c = 0
    · exfalso
      have herr : get_layout_values w b c r = Except.error "ZeroDivisionError" := by
        simp [get_layout_values, hp]
      rw [requirements_met, herr] at h
      exact nomatch h
    · have hok := get_layout_values_ok w b c r hp
      rw [requirements_met, hok] at h
      simp only [Except.map] at h
      have hb := Except.ok.inj h
      have hb2 := Bool.and_eq_true_iff.mp hb
      have h1 := of_decide_eq_true hb2.1
      have h2 := of_decide_eq_true hb2.2
      exact ⟨_, hok, h1, h2⟩
  refine ⟨main, fun hc h => ?_⟩
  obtain ⟨lv, _, _, h41⟩ := main h
  omega

/-- C5 witness: a terminal that does satisfy the amended conditions
(50 columns, 20 rows, one worker) yields the layout record, and a
41-column terminal can never make `requirements_met` return `true`. -/
theorem requirements_met_amended_witness :
    (∃ lv, get_layout_values 1 0 50 20 = Except.ok lv ∧
      lv.last_metric_line ≤ 20 ∧ METRIC_BOX_WIDTH + 2 < 50) ∧
    requirements_met 1 0 41 20 ≠ Except.ok true :=
  ⟨(requirements_met_amended 1 0 50 20).1 rfl,
   (requirements_met_amended 1 0 41 20).2 (by decide)⟩

end WordfenceProgress
